import Mathlib

/-!
Verification of the Arduino-Python3 Command API client (src/Arduino/arduino.py)
against its natural-language specification.

The host-side client builds delimited command frames, writes them over a serial
link, and decodes textual responses.  The shallow embedding below models each
operation as a pure function: the serial transport is factored out by passing
the device response(s) as an argument and returning the frame(s) the operation
writes; Python exceptions become an explicit error type; the per-pin mode
dictionary and the servo binding dictionary become association lists with
Python-dict semantics (a key occurs at most once; assignment replaces in
place; lookup of a missing key is a KeyError).
-/

/-- Python exceptions that the modelled operations can raise. -/
inductive PyErr where
  | keyError (key : Int)
  | valueError (msg : String)
  | typeError (msg : String)
  | nameError (nm : String)
  | indentationError (line : Nat)
deriving Repr, DecidableEq

/-- A complete delimited command string written to the serial link. -/
abbrev Frame := String

/-- Python dict lookup `d[k]` on an association list (first binding wins). -/
def dictGet {α : Type} (d : List (Int × α)) (k : Int) : Option α :=
  match d with
  | [] => Option.none
  | (k', v) :: rest => if k' = k then some v else dictGet rest k

/-- Python dict assignment `d[k] = v`: replaces the existing binding in place,
or appends a fresh one. -/
def dictSet {α : Type} (d : List (Int × α)) (k : Int) (v : α) : List (Int × α) :=
  match d with
  | [] => [(k, v)]
  | (k', v') :: rest => if k' = k then (k, v) :: rest else (k', v') :: dictSet rest k v

/-- Python dict deletion `del d[k]`: removes the binding for `k`. -/
def dictDel {α : Type} (d : List (Int × α)) (k : Int) : List (Int × α) :=
  match d with
  | [] => []
  | (k', v') :: rest => if k' = k then rest else (k', v') :: dictDel rest k

/-- Models Python str.upper() on the ASCII strings used by the protocol. -/
def pyUpper (s : String) : String :=
  String.mk (s.data.map Char.toUpper)

/-- Value of a list of decimal digit characters. -/
def parseDigits (cs : List Char) : Nat :=
  cs.foldl (fun a c => a * 10 + (c.toNat - 48)) 0

/-- The list is nonempty and consists of decimal digits only. -/
def allDigits (cs : List Char) : Bool :=
  !cs.isEmpty && cs.all Char.isDigit

/-- Leading and trailing whitespace stripped from a character list. -/
def trimChars (cs : List Char) : List Char :=
  (((cs.dropWhile Char.isWhitespace).reverse.dropWhile Char.isWhitespace)).reverse

/-- Models the Python int() builtin on response strings: surrounding
whitespace stripped, optional sign, decimal digits; anything else fails
(Option.none models the ValueError int() raises). -/
def pyInt? (s : String) : Option Int :=
  match trimChars s.data with
  | '-' :: rest => if allDigits rest then some (-(parseDigits rest : Int)) else Option.none
  | '+' :: rest => if allDigits rest then some ((parseDigits rest : Int) : Int) else Option.none
  | cs => if allDigits cs then some ((parseDigits cs : Int) : Int) else Option.none

/-- Splits a character list at the first occurrence of e or E. -/
def splitOnExp (cs : List Char) : List Char × Option (List Char) :=
  match cs with
  | [] => ([], Option.none)
  | c :: rest =>
    if c = 'e' ∨ c = 'E' then ([], some rest)
    else
      let (m, e) := splitOnExp rest
      (c :: m, e)

/-- Splits a character list at the first occurrence of a dot. -/
def splitOnDot (cs : List Char) : List Char × Option (List Char) :=
  match cs with
  | [] => ([], Option.none)
  | c :: rest =>
    if c = '.' then ([], some rest)
    else
      let (i, f) := splitOnDot rest
      (c :: i, f)

/-- Signed run of decimal digits (used for float exponents). -/
def parseSignedDigits? (cs : List Char) : Option Int :=
  match cs with
  | '-' :: rest => if allDigits rest then some (-(parseDigits rest : Int)) else Option.none
  | '+' :: rest => if allDigits rest then some ((parseDigits rest : Int) : Int) else Option.none
  | _ => if allDigits cs then some ((parseDigits cs : Int) : Int) else Option.none

/-- Mantissa of a decimal literal: digits with an optional dot, at least one
digit in total, each side of the dot all digits. -/
def parseMantissa? (cs : List Char) : Option Rat :=
  let (ip, fp) := splitOnDot cs
  match fp with
  | Option.none => if allDigits ip then some ((parseDigits ip : Rat)) else Option.none
  | some f =>
    if (ip.all Char.isDigit && f.all Char.isDigit) && !(ip.isEmpty && f.isEmpty) then
      some ((parseDigits ip : Rat) + (parseDigits f : Rat) / ((10 : Rat) ^ f.length))
    else Option.none

/-- Models the Python float() builtin on ordinary decimal response strings:
surrounding whitespace stripped, optional sign, digits with an optional
fraction, optional exponent.  The exotic forms float() also accepts (inf, nan,
underscores) are outside the modelled response alphabet.  The rational value
stands in for the IEEE float, which is exact on the protocol responses. -/
def pyFloat? (s : String) : Option Rat :=
  let cs := trimChars s.data
  let signRest : Rat × List Char :=
    match cs with
    | '-' :: r => (-1, r)
    | '+' :: r => (1, r)
    | r => (1, r)
  let (mant, ex) := splitOnExp signRest.2
  match parseMantissa? mant with
  | Option.none => Option.none
  | some m =>
    match ex with
    | Option.none => some (signRest.1 * m)
    | some e =>
      match parseSignedDigits? e with
      | Option.none => Option.none
      | some k => some (signRest.1 * m * (10 : Rat) ^ k)

/-- build_cmd_str from arduino.py: the delimited frame.  Arguments arrive
already string-converted (Python applies str to each); a falsy args value
(None or the empty list) yields an empty argument segment. -/
def build_cmd_str (cmd : String) (args : List String) : Frame :=
  let argStr := if args.isEmpty then "" else String.intercalate "%" args
  "@" ++ cmd ++ "%" ++ argStr ++ "$!"

/-- The client-library version constant libraryVersion. -/
def libraryVersion : String := "V0.6"

/-- Outcome of the version handshake in the explicit-port branch of
Arduino.__init__. -/
inductive Handshake where
  | ok
  | warned
  | silentMismatch
deriving Repr, DecidableEq

/-- Models the version check of the explicit-port branch of Arduino.__init__
(arduino.py lines 159-173).  The input is the string get_version returned:
Option.none when the version write itself failed, otherwise the decoded
response line ("" on a read timeout).  A mismatching version prints the
update warning only when its first character is the letter V or the whole
response is the literal "version" (indexing None or "" raises, caught, and
leaves ver empty); every other mismatch falls through silently. -/
def explicitPortHandshake (version : Option String) : Handshake :=
  match version with
  | Option.none => Handshake.silentMismatch
  | some v =>
    if v = libraryVersion then Handshake.ok
    else if v.take 1 = "V" ∨ v = "version" then Handshake.warned
    else Handshake.silentMismatch

/-- Models the whole explicit-port branch of Arduino.__init__: the branch
contains no raise statement, so whatever the handshake outcome, control
reaches the session-construction code and the Arduino object is returned. -/
def explicitPortInit (version : Option String) : Except PyErr Handshake :=
  Except.ok (explicitPortHandshake version)

/-- Arduino.pinMode: validates the mode literal, records it in pinModeDic and
encodes the pin with the sign convention (INPUT as -pin, INPUT_PULLUP as
-16384-pin, OUTPUT as pin) into a pm frame. -/
def pinMode (dic : List (Int × String)) (pin : Int) (val : String) :
    Except PyErr (List (Int × String) × Frame) :=
  let val := pyUpper val
  if val = "INPUT" ∨ val = "OUTPUT" ∨ val = "INPUT_PULLUP" then
    let pin_ : Int :=
      if val = "INPUT" then -pin
      else if val = "INPUT_PULLUP" then -16384 - pin
      else pin
    Except.ok (dictSet dic pin val, build_cmd_str "pm" [toString pin_])
  else
    Except.error (PyErr.valueError ("val: " ++ val ++ " not in (INPUT, OUTPUT, INPUT_PULLUP)"))

/-- Arduino.digitalWrite: looks the pin up in pinModeDic (a pin never passed
to pinMode raises KeyError at the subscription itself), requires OUTPUT,
validates the level literal, and encodes LOW as -pin and HIGH as pin into a
dw frame.  An error branch returns before any frame is built or written. -/
def digitalWrite (dic : List (Int × String)) (pin : Int) (val : String) :
    Except PyErr Frame :=
  let val := pyUpper val
  match dictGet dic pin with
  | Option.none => Except.error (PyErr.keyError pin)
  | some mode =>
    if ¬ (mode = "OUTPUT") then
      Except.error (PyErr.valueError ("pin: " ++ toString pin ++ " not set to OUTPUT"))
    else if val = "HIGH" ∨ val = "LOW" then
      let pin_ : Int := if val = "LOW" then -pin else pin
      Except.ok (build_cmd_str "dw" [toString pin_])
    else
      Except.error (PyErr.valueError ("val: " ++ val ++ " not in (HIGH, LOW)"))

/-- Arduino.analogWrite: requires the pin configured OUTPUT (missing pin is a
KeyError), clamps the value to [0,255] and encodes an aw frame. -/
def analogWrite (dic : List (Int × String)) (pin val : Int) :
    Except PyErr Frame :=
  match dictGet dic pin with
  | Option.none => Except.error (PyErr.keyError pin)
  | some mode =>
    if ¬ (mode = "OUTPUT") then
      Except.error (PyErr.valueError ("pin: " ++ toString pin ++ " not set to OUTPUT"))
    else
      let val := if val > 255 then 255 else if val < 0 then 0 else val
      Except.ok (build_cmd_str "aw" [toString pin, toString val])

/-- Arduino.analogRead: writes an ar frame unconditionally, then decodes the
response with int(); any decode failure (empty or non-numeric response) is
caught and yields 0. -/
def analogRead (pin : Int) (response : String) : Frame × Int :=
  (build_cmd_str "ar" [toString pin],
   match pyInt? response with
   | some n => n
   | Option.none => 0)

/-- Arduino.pulseIn: requires the pin configured INPUT, validates the level
literal, encodes LOW as -pin and HIGH as pin into a pi frame, and decodes the
response with float(); any decode failure is caught and yields -1. -/
def pulseIn (dic : List (Int × String)) (pin : Int) (val : String) (response : String) :
    Except PyErr (Frame × Rat) :=
  let val := pyUpper val
  match dictGet dic pin with
  | Option.none => Except.error (PyErr.keyError pin)
  | some mode =>
    if ¬ (mode = "INPUT") then
      Except.error (PyErr.valueError ("pin: " ++ toString pin ++ " not set to INPUT"))
    else if ¬ (val = "LOW" ∨ val = "HIGH") then
      Except.error (PyErr.valueError ("val: " ++ val ++ " not in (LOW, HIGH)"))
    else
      let frame := build_cmd_str "pi" [toString (if val = "LOW" then -pin else pin)]
      match pyFloat? response with
      | some t => Except.ok (frame, t)
      | Option.none => Except.ok (frame, -1)

/-- Arduino.pulseIn_set: after converting pin and val, the very next
statement (arduino.py line 330) is numtrials = int(numtrials), which reads
the unbound name numtrials — the parameter is spelled numTrials — so every
call raises NameError there.  The rest of the body (the ps frames, the
response loop, the averaging) is unreachable; no frame is ever written. -/
def pulseIn_set (dic : List (Int × String)) (pin : Int) (val : String)
    (numTrials : Int) : Except PyErr Rat × List Frame :=
  let _pin := pin
  let _val := pyUpper val
  let _dic := dic
  let _numTrials := numTrials
  (Except.error (PyErr.nameError "numtrials"), [])

/-- Arduino.shiftOut: requires both pins configured OUTPUT and a valid bit
order, clamps the value to [0,255] and encodes an so frame.  The combined
condition is evaluated left to right as in Python: a missing data pin is a
KeyError, a non-OUTPUT data pin skips the clock-pin lookup and re-raises in
the else branch, and so on. -/
def shiftOut (dic : List (Int × String)) (dataPin clockPin : Int)
    (pinOrder : String) (value : Int) : Except PyErr Frame :=
  let pinOrder := pyUpper pinOrder
  match dictGet dic dataPin with
  | Option.none => Except.error (PyErr.keyError dataPin)
  | some dMode =>
    if dMode = "OUTPUT" then
      match dictGet dic clockPin with
      | Option.none => Except.error (PyErr.keyError clockPin)
      | some cMode =>
        if cMode = "OUTPUT" ∧ (pinOrder = "MSBFIRST" ∨ pinOrder = "LSBFIRST") then
          let value := if value < 0 then 0 else if value > 255 then 255 else value
          Except.ok (build_cmd_str "so"
            [toString dataPin, toString clockPin, pinOrder, toString value])
        else if ¬ (cMode = "OUTPUT") then
          Except.error (PyErr.valueError
            ("pin: " ++ toString clockPin ++ " not initialised to OUTPUT"))
        else
          Except.error (PyErr.valueError
            ("pinOrder: " ++ pinOrder ++ " not in (MSBFIRST, LSBFIRST)"))
    else
      Except.error (PyErr.valueError
        ("pin: " ++ toString dataPin ++ " not initialised to OUTPUT"))

/-- Index and value of the first nonempty string in a response list. -/
def firstNonempty (responses : List String) : Option (Nat × String) :=
  match responses with
  | [] => Option.none
  | r :: rest =>
    if r = "" then
      match firstNonempty rest with
      | some (k, s) => some (k + 1, s)
      | Option.none => Option.none
    else some (0, r)

/-- Servos.attach: writes the sva frame once per loop iteration until the
first nonempty response (an endless run of empty responses never leaves the
loop, modelled as Option.none), then parses the device-assigned position
handle with int() — a nonempty non-numeric response raises ValueError, as the
call is outside any try — and records the pin-to-handle binding. -/
def Servos.attach (pos : List (Int × Int)) (pin minW maxW : Int)
    (responses : List String) :
    Option (Except PyErr (List (Int × Int) × List Frame × Int)) :=
  let cmd := build_cmd_str "sva" [toString pin, toString minW, toString maxW]
  match firstNonempty responses with
  | Option.none => Option.none
  | some (k, r) =>
    some (match pyInt? r with
      | Option.none => Except.error (PyErr.valueError ("invalid literal for int: " ++ r))
      | some position =>
          Except.ok (dictSet pos pin position, List.replicate (k + 1) cmd, position))

/-- Servos.detach: looks up the binding (an unbound pin raises KeyError),
writes the svd frame for the stored position handle and deletes the binding. -/
def Servos.detach (pos : List (Int × Int)) (pin : Int) :
    Except PyErr (List (Int × Int) × Frame) :=
  match dictGet pos pin with
  | Option.none => Except.error (PyErr.keyError pin)
  | some position =>
      Except.ok (dictDel pos pin, build_cmd_str "svd" [toString position])

/-- The TypeError message raised when write_and_flush is called with the
keyword raise_errors, which is not among its parameters (its flag is spelled
raise_error). -/
def twfMsg : String := "write_and_flush got an unexpected keyword argument raise_errors"

/-- Servos.write: looks up the binding (an unbound pin raises KeyError),
builds the svw frame, then calls write_and_flush with the keyword argument
raise_errors — not a parameter of write_and_flush, whose flag is raise_error
— so Python raises TypeError at the call itself, before write_and_flush
runs: the frame is built but never written. -/
def Servos.write (pos : List (Int × Int)) (pin angle : Int) : Except PyErr Frame :=
  match dictGet pos pin with
  | Option.none => Except.error (PyErr.keyError pin)
  | some position =>
    let _cmd := build_cmd_str "svw" [toString position, toString angle]
    Except.error (PyErr.typeError twfMsg)

/-- Importing the Arduino module: CPython compiles the whole file when it is
imported, and the write_and_flush call on line 571 (inside
Servos.writeMicroseconds) is dedented by one space — seven spaces against
the method body at eight, with the enclosing levels at zero and four — a
dedent matching no enclosing indentation level, which CPython rejects with
an IndentationError.  The import itself therefore fails before any class or
method object exists. -/
def arduinoModuleImport : Except PyErr Unit :=
  Except.error (PyErr.indentationError 571)

/-- Servos.writeMicroseconds: its body contains the syntactically invalid
line 571 (see arduinoModuleImport), so the method never compiles and never
executes.  Any attempt to call it can only surface the import-time
IndentationError — never the TypeError that the raise_errors keyword
mismatch on that same line would produce if the line sat inside the body —
and no frame is ever written. -/
def Servos.writeMicroseconds (pos : List (Int × Int)) (pin uS : Int) :
    Except PyErr Frame :=
  let _pos := pos
  let _pin := pin
  let _uS := uS
  Except.error (PyErr.indentationError 571)

/-- The result is a raised TypeError. -/
def raisesTypeError (r : Except PyErr Frame) : Bool :=
  match r with
  | Except.error (PyErr.typeError _) => true
  | _ => false

/-- Python value returned by the software-serial operations: a string, a
bool, or the implicit None of a fall-through return. -/
inductive PyRet where
  | str (s : String)
  | bool (b : Bool)
  | none
deriving Repr, DecidableEq

/-- SoftwareSerial.begin: writes the ss frame, then sets connected and
returns True exactly when the response is the acknowledgement "ss OK", and
sets connected to False and returns False otherwise.  Result: (new connected
state, return value, frame written). -/
def SoftwareSerial.begin (p1 p2 baud : Int) (response : String) :
    Bool × Bool × Frame :=
  let frame := build_cmd_str "ss" [toString p1, toString p2, toString baud]
  if response = "ss OK" then (true, true, frame)
  else (false, false, frame)

/-- SoftwareSerial.write: while connected, writes the sw frame and returns
True on the "ss OK" acknowledgement (implicit None otherwise); while
disconnected, writes nothing and returns False. -/
def SoftwareSerial.write (connected : Bool) (data : String) (response : String) :
    PyRet × List Frame :=
  if connected then
    let frame := build_cmd_str "sw" [data]
    if response = "ss OK" then (PyRet.bool true, [frame])
    else (PyRet.none, [frame])
  else (PyRet.bool false, [])

/-- SoftwareSerial.read: while connected, writes the sr frame and returns the
nonempty response (implicit None on an empty one); while disconnected,
writes nothing and returns False. -/
def SoftwareSerial.read (connected : Bool) (response : String) :
    PyRet × List Frame :=
  if connected then
    let frame := build_cmd_str "sr" []
    if ¬ (response = "") then (PyRet.str response, [frame])
    else (PyRet.none, [frame])
  else (PyRet.bool false, [])

/-- EEPROM.size: writes the sz frame and decodes the response with int();
any failure is caught and yields 0. -/
def EEPROM.size (response : String) : Frame × Int :=
  (build_cmd_str "sz" [],
   match pyInt? response with
   | some n => n
   | Option.none => 0)

/-- EEPROM.read: writes the eer frame; a nonempty response is decoded with
int(), a non-numeric one raising inside the try and yielding 0; an empty
response skips the guarded return and the function falls through, returning
the implicit None (modelled Option.none). -/
def EEPROM.read (address : Int) (response : String) : Frame × Option Int :=
  (build_cmd_str "eer" [toString address],
   if response = "" then Option.none
   else
     match pyInt? response with
     | some n => some n
     | Option.none => some 0)

/-- An error value identifies the required pin state when it is a ValueError
whose message mentions OUTPUT, as the precondition messages of the source do;
a bare KeyError carries only the pin number. -/
def mentionsRequiredState (e : PyErr) : Bool :=
  match e with
  | PyErr.valueError m =>
    match m.splitOn "OUTPUT" with
    | [] => false
    | [_] => false
    | _ => true
  | _ => false

/-- Clamp to a byte, as the spec states it: above 255 becomes 255, below 0
becomes 0. -/
def clampByte (v : Int) : Int :=
  if v > 255 then 255 else if v < 0 then 0 else v

/-! Helper lemmas about the dict model. -/

theorem dictGet_dictSet_self {α : Type} (d : List (Int × α)) (k : Int) (v : α) :
    dictGet (dictSet d k v) k = some v := by
  induction d with
  | nil => simp [dictSet, dictGet]
  | cons hd tl ih =>
    obtain ⟨k', v'⟩ := hd
    by_cases h : k' = k
    · subst h
      simp [dictSet, dictGet]
    · simp [dictSet, dictGet, h, ih]

theorem dictGet_eq_none_of_not_mem {α : Type} (d : List (Int × α)) (k : Int)
    (h : k ∉ d.map Prod.fst) : dictGet d k = Option.none := by
  induction d with
  | nil => simp [dictGet]
  | cons hd tl ih =>
    obtain ⟨k', v'⟩ := hd
    simp only [List.map_cons, List.mem_cons, not_or] at h
    simp [dictGet, Ne.symm h.1, ih h.2]

theorem dictGet_dictDel_dictSet_self {α : Type} (d : List (Int × α)) (k : Int) (v : α)
    (hnd : (d.map Prod.fst).Nodup) :
    dictGet (dictDel (dictSet d k v) k) k = Option.none := by
  induction d with
  | nil => simp [dictSet, dictDel, dictGet]
  | cons hd tl ih =>
    obtain ⟨k', v'⟩ := hd
    simp only [List.map_cons, List.nodup_cons] at hnd
    by_cases h : k' = k
    · subst h
      simp only [dictSet, if_pos rfl, dictDel, if_pos rfl]
      exact dictGet_eq_none_of_not_mem tl k' hnd.1
    · simp [dictSet, dictDel, dictGet, h, ih hnd.2]

theorem build_cmd_str_eq (name : String) (args : List String) :
    build_cmd_str name args =
      "@" ++ name ++ "%" ++ String.intercalate "%" args ++ "$!" := by
  cases args with
  | nil => simp [build_cmd_str, String.intercalate]
  | cons a as => simp [build_cmd_str]

/-- C1: for every command name and argument list, build_cmd_str produces the
delimited frame consisting of a literal @, the name, a %, the
string-converted arguments joined by %, and the literal terminator, with an
empty argument segment when there are zero arguments; in particular
build_cmd_str "dw" [13] is "@dw%13$!" and build_cmd_str "version" with no
arguments is "@version%$!". -/
theorem build_cmd_str_spec (name : String) (args : List Int) :
    build_cmd_str name (args.map toString) =
      "@" ++ name ++ "%" ++ String.intercalate "%" (args.map toString) ++ "$!" ∧
    build_cmd_str name [] = "@" ++ name ++ "%" ++ "" ++ "$!" ∧
    build_cmd_str "dw" (List.map toString [(13 : Int)]) = "@dw%13$!" ∧
    build_cmd_str "version" [] = "@version%$!" := by
  refine ⟨build_cmd_str_eq name (args.map toString), ?_, rfl, rfl⟩
  simp [build_cmd_str]

/-- C2: pinMode encodes INPUT as the negated pin, INPUT_PULLUP as -16384
minus the pin, OUTPUT as the plain pin, and, on a pin configured OUTPUT,
digitalWrite encodes LOW as the negated pin and HIGH as the plain pin. -/
theorem pin_sign_encoding (dic : List (Int × String)) (p : Int) :
    pinMode dic p "INPUT" =
      Except.ok (dictSet dic p "INPUT", build_cmd_str "pm" [toString (-p)]) ∧
    pinMode dic p "INPUT_PULLUP" =
      Except.ok (dictSet dic p "INPUT_PULLUP", build_cmd_str "pm" [toString (-16384 - p)]) ∧
    pinMode dic p "OUTPUT" =
      Except.ok (dictSet dic p "OUTPUT", build_cmd_str "pm" [toString p]) ∧
    (dictGet dic p = some "OUTPUT" →
      digitalWrite dic p "LOW" = Except.ok (build_cmd_str "dw" [toString (-p)]) ∧
      digitalWrite dic p "HIGH" = Except.ok (build_cmd_str "dw" [toString p])) := by
  refine ⟨rfl, rfl, rfl, fun h => ⟨?_, ?_⟩⟩ <;>
    simp only [digitalWrite, h] <;> rfl

/-- C2 witness: the encoding convention evaluated on pin 13 with the pin
configured OUTPUT. -/
theorem pin_sign_encoding_witness :
    dictGet [((13 : Int), "OUTPUT")] 13 = some "OUTPUT" ∧
    digitalWrite [((13 : Int), "OUTPUT")] 13 "LOW" =
      Except.ok (build_cmd_str "dw" [toString (-13 : Int)]) :=
  ⟨rfl, ((pin_sign_encoding [((13 : Int), "OUTPUT")] 13).2.2.2 rfl).1⟩

/-- C3 counterexample: digitalWrite on pin 13 with an empty pinModeDic (the
pin was never passed to pinMode) raises a bare KeyError carrying only the
pin number — not a ValueError naming the required OUTPUT state. -/
theorem digitalWrite_unconfigured_cex :
    digitalWrite ([] : List (Int × String)) 13 "HIGH" =
      Except.error (PyErr.keyError 13) ∧
    mentionsRequiredState (PyErr.keyError 13) = false := ⟨rfl, rfl⟩

/-- C3 amended: on a pin never passed to pinMode, digitalWrite raises a key
lookup error identifying the pin (but not the required state) before any
frame is built or written; after pinMode with OUTPUT, the same digitalWrite
call succeeds and encodes the positive pin number. -/
theorem digitalWrite_unconfigured_amended (dic : List (Int × String)) (p : Int)
    (h : dictGet dic p = Option.none) :
    digitalWrite dic p "HIGH" = Except.error (PyErr.keyError p) ∧
    mentionsRequiredState (PyErr.keyError p) = false ∧
    (∀ dic2 f, pinMode dic p "OUTPUT" = Except.ok (dic2, f) →
      digitalWrite dic2 p "HIGH" = Except.ok (build_cmd_str "dw" [toString p])) := by
  refine ⟨by simp only [digitalWrite, h], rfl, fun dic2 f hpm => ?_⟩
  have h2 : dic2 = dictSet dic p "OUTPUT" := by
    have : pinMode dic p "OUTPUT" =
        Except.ok (dictSet dic p "OUTPUT", build_cmd_str "pm" [toString p]) := rfl
    rw [this] at hpm
    exact congrArg Prod.fst (Except.ok.inj hpm) |>.symm
  subst h2
  simp only [digitalWrite, dictGet_dictSet_self]
  rfl

/-- C3 witness: pin 13, starting from the empty pinModeDic. -/
theorem digitalWrite_unconfigured_witness :
    dictGet ([] : List (Int × String)) 13 = Option.none ∧
    digitalWrite ([] : List (Int × String)) 13 "HIGH" =
      Except.error (PyErr.keyError 13) :=
  ⟨rfl, (digitalWrite_unconfigured_amended [] 13 rfl).1⟩

/-- C4 counterexample: in the explicit-port branch, the handshake response
"garbage" differs from the library version V0.6 yet produces no
compatibility warning, and the empty response (the no-response timeout case)
is likewise silent — in both cases init still succeeds and the session is
created, so a mismatch can be a silent event and a missing response is not a
hard failure. -/
theorem explicit_handshake_cex :
    explicitPortInit (some "garbage") = Except.ok Handshake.silentMismatch ∧
    explicitPortInit (some "") = Except.ok Handshake.silentMismatch ∧
    ¬ (Handshake.silentMismatch = Handshake.warned) := ⟨rfl, rfl, by decide⟩

/-- C4 amended: connecting by explicit port never fails on the handshake —
the session is created whatever the response; a mismatching response
produces the compatibility warning exactly when it starts with the letter V
or equals the literal "version", and every other mismatch (including an
empty or absent response) is silent. -/
theorem explicit_handshake_amended (version : Option String) :
    (∃ h, explicitPortInit version = Except.ok h) ∧
    (explicitPortHandshake version = Handshake.warned ↔
      ∃ v, version = some v ∧ ¬ (v = libraryVersion) ∧
        (v.take 1 = "V" ∨ v = "version")) ∧
    (explicitPortHandshake version = Handshake.ok ↔ version = some libraryVersion) := by
  refine ⟨⟨explicitPortHandshake version, rfl⟩, ?_, ?_⟩ <;>
  · cases version with
    | none => simp [explicitPortHandshake]
    | some v =>
      by_cases h1 : v = libraryVersion
      · subst h1
        simp [explicitPortHandshake]
      · by_cases h2 : v.take 1 = "V" ∨ v = "version" <;>
          simp [explicitPortHandshake, h1, h2]

/-- C4 witness: the amended characterization evaluated at the matching
response V0.6. -/
theorem explicit_handshake_witness :
    explicitPortHandshake (some "V0.6") = Handshake.ok :=
  (explicit_handshake_amended (some "V0.6")).2.2.mpr rfl

/-- C5 counterexample: EEPROM.read on a timed-out (empty) response returns
the implicit None, not the documented 0 sentinel: the nonempty guard skips
the return and the function falls through. -/
theorem read_fallback_cex :
    (EEPROM.read 0 "").2 = Option.none ∧
    ¬ ((Option.none : Option Int) = some 0) := ⟨rfl, by decide⟩

/-- C5 amended: on a response that decodes to no integer, analogRead returns
0 and EEPROM.size returns 0; on a response that decodes to no float, pulseIn
(on a pin configured INPUT) returns -1; EEPROM.read returns 0 on a nonempty
undecodable response but returns None on an empty one. -/
theorem read_fallback_amended (p addr pin : Int) (dic : List (Int × String))
    (r : String) (hi : pyInt? r = Option.none) (hf : pyFloat? r = Option.none)
    (hdic : dictGet dic pin = some "INPUT") :
    (analogRead p r).2 = 0 ∧
    (EEPROM.size r).2 = 0 ∧
    pulseIn dic pin "HIGH" r = Except.ok (build_cmd_str "pi" [toString pin], -1) ∧
    (¬ (r = "") → (EEPROM.read addr r).2 = some 0) ∧
    (r = "" → (EEPROM.read addr r).2 = Option.none) := by
  refine ⟨?_, ?_, ?_, fun hne => ?_, fun he => ?_⟩
  · simp [analogRead, hi]
  · simp [EEPROM.size, hi]
  · simp only [pulseIn, hdic]
    simp only [hf]
    rfl
  · simp [EEPROM.read, hne, hi]
  · simp [EEPROM.read, he]

/-- C5 witness: the fallbacks evaluated on the empty (timeout) response and
on the undecodable response abc, with pin 2 configured INPUT. -/
theorem read_fallback_witness :
    pyInt? "" = Option.none ∧ pyFloat? "" = Option.none ∧
    pyInt? "abc" = Option.none ∧ pyFloat? "abc" = Option.none ∧
    dictGet [((2 : Int), "INPUT")] 2 = some "INPUT" ∧
    (analogRead 5 "").2 = 0 ∧
    (EEPROM.read 7 "abc").2 = some 0 ∧
    (EEPROM.read 7 "").2 = Option.none :=
  ⟨rfl, rfl, rfl, rfl, rfl,
   (read_fallback_amended 5 7 2 [((2 : Int), "INPUT")] "" rfl rfl rfl).1,
   ((read_fallback_amended 5 7 2 [((2 : Int), "INPUT")] "abc" rfl rfl rfl).2.2.2.1
     (by simp)),
   ((read_fallback_amended 5 7 2 [((2 : Int), "INPUT")] "" rfl rfl rfl).2.2.2.2 rfl)⟩

/-- C6: Servos.attach on a successful (nonempty, numeric) response records
exactly one binding from the pin to the device-assigned position handle;
Servos.detach sends the svd frame for that handle and removes the binding;
Servos.write after detach raises the unbound-pin error (the binding lookup
fails) and sends nothing. -/
theorem servo_lifecycle (pos : List (Int × Int)) (p handle angle : Int)
    (r : String) (hr : ¬ (r = "")) (hparse : pyInt? r = some handle)
    (hnd : (pos.map Prod.fst).Nodup) :
    Servos.attach pos p 544 2400 [r] =
      some (Except.ok (dictSet pos p handle,
        [build_cmd_str "sva" [toString p, toString (544 : Int), toString (2400 : Int)]],
        handle)) ∧
    dictGet (dictSet pos p handle) p = some handle ∧
    Servos.detach (dictSet pos p handle) p =
      Except.ok (dictDel (dictSet pos p handle) p, build_cmd_str "svd" [toString handle]) ∧
    dictGet (dictDel (dictSet pos p handle) p) p = Option.none ∧
    Servos.write (dictDel (dictSet pos p handle) p) p angle =
      Except.error (PyErr.keyError p) := by
  have hdel := dictGet_dictDel_dictSet_self pos p handle hnd
  refine ⟨?_, dictGet_dictSet_self pos p handle, ?_, hdel, ?_⟩
  · simp [Servos.attach, firstNonempty, hr, hparse]
  · simp [Servos.detach, dictGet_dictSet_self]
  · simp [Servos.write, hdel]

/-- C6 witness: attach pin 5 with device response 7, detach, then write. -/
theorem servo_lifecycle_witness :
    ¬ ("7" = "") ∧ pyInt? "7" = some 7 ∧
    ((([] : List (Int × Int)).map Prod.fst).Nodup) ∧
    Servos.write (dictDel (dictSet ([] : List (Int × Int)) 5 7) 5) 5 90 =
      Except.error (PyErr.keyError 5) :=
  ⟨by decide, rfl, by simp,
   (servo_lifecycle [] 5 7 90 "7" (by decide) rfl (by simp)).2.2.2.2⟩

/-- C7: SoftwareSerial.begin sets the connected state, and returns True,
exactly when the device response is the acknowledgement "ss OK", and
otherwise leaves the channel disconnected and returns False (always writing
the ss frame); while disconnected, SoftwareSerial.write and
SoftwareSerial.read write no frame and return False. -/
theorem softserial_state_machine (p1 p2 baud : Int) (resp data rresp : String) :
    ((SoftwareSerial.begin p1 p2 baud resp).1 = true ↔ resp = "ss OK") ∧
    (SoftwareSerial.begin p1 p2 baud resp).2.1 = (SoftwareSerial.begin p1 p2 baud resp).1 ∧
    (SoftwareSerial.begin p1 p2 baud resp).2.2 =
      build_cmd_str "ss" [toString p1, toString p2, toString baud] ∧
    SoftwareSerial.write false data rresp = (PyRet.bool false, []) ∧
    SoftwareSerial.read false rresp = (PyRet.bool false, []) := by
  by_cases h : resp = "ss OK" <;>
    simp [SoftwareSerial.begin, SoftwareSerial.write, SoftwareSerial.read, h]

/-- C8: on pins configured OUTPUT, analogWrite and shiftOut clamp the value
argument sent on the wire to [0, 255]: above 255 becomes 255, below 0
becomes 0. -/
theorem write_clamping (dic : List (Int × String)) (p dPin cPin v : Int)
    (hp : dictGet dic p = some "OUTPUT") (hd : dictGet dic dPin = some "OUTPUT")
    (hc : dictGet dic cPin = some "OUTPUT") :
    analogWrite dic p v =
      Except.ok (build_cmd_str "aw" [toString p, toString (clampByte v)]) ∧
    shiftOut dic dPin cPin "MSBFIRST" v =
      Except.ok (build_cmd_str "so"
        [toString dPin, toString cPin, "MSBFIRST", toString (clampByte v)]) ∧
    0 ≤ clampByte v ∧ clampByte v ≤ 255 := by
  have hclamp : (if v < 0 then (0 : Int) else if v > 255 then 255 else v) = clampByte v := by
    unfold clampByte
    split_ifs <;> omega
  refine ⟨?_, ?_, ?_, ?_⟩
  · simp only [analogWrite, hp]
    rfl
  · have hso : shiftOut dic dPin cPin "MSBFIRST" v =
        Except.ok (build_cmd_str "so" [toString dPin, toString cPin, "MSBFIRST",
          toString (if v < 0 then (0 : Int) else if v > 255 then 255 else v)]) := by
      simp only [shiftOut, hd, hc]
      rfl
    rw [hso, hclamp]
  · unfold clampByte
    split_ifs <;> omega
  · unfold clampByte
    split_ifs <;> omega

/-- C8 witness: pins 2, 3, 4 configured OUTPUT and the out-of-range value
300, which is clamped to 255. -/
theorem write_clamping_witness :
    dictGet [((2 : Int), "OUTPUT"), (3, "OUTPUT"), (4, "OUTPUT")] 2 = some "OUTPUT" ∧
    clampByte 300 = 255 ∧ clampByte (-5) = 0 ∧
    analogWrite [((2 : Int), "OUTPUT"), (3, "OUTPUT"), (4, "OUTPUT")] 2 300 =
      Except.ok (build_cmd_str "aw" [toString (2 : Int), toString (clampByte 300)]) :=
  ⟨rfl, rfl, rfl,
   (write_clamping [((2 : Int), "OUTPUT"), (3, "OUTPUT"), (4, "OUTPUT")] 2 3 4 300
     rfl rfl rfl).1⟩

/-- C9: every call to pulseIn_set, whatever the pin, level and trial count,
raises NameError on the unbound name numtrials before anything is written to
the serial stream: no ps frame is ever sent (the frame list is empty) and no
duration is ever returned. -/
theorem pulseIn_set_name_error (dic : List (Int × String)) (pin : Int)
    (val : String) (n : Int) :
    pulseIn_set dic pin val n = (Except.error (PyErr.nameError "numtrials"), []) := rfl

/-- C10 counterexample: even with pin 3 bound to position handle 9, a call
to Servos.writeMicroseconds does not raise a TypeError: its body contains
the one-space-dedented line 571, so CPython rejects the whole module with
an IndentationError at import and the method never executes — the only
observable failure is the import-time IndentationError. -/
theorem servo_writeMicroseconds_cex :
    dictGet [((3 : Int), (9 : Int))] 3 = some 9 ∧
    Servos.writeMicroseconds [((3 : Int), (9 : Int))] 3 1500 =
      Except.error (PyErr.indentationError 571) ∧
    raisesTypeError (Servos.writeMicroseconds [((3 : Int), (9 : Int))] 3 1500) = false ∧
    arduinoModuleImport = Except.error (PyErr.indentationError 571) :=
  ⟨rfl, rfl, rfl, rfl⟩

/-- C10 amended: on every pin with a servo binding, Servos.write raises the
TypeError for the unexpected keyword argument raise_errors instead of
writing the frame it built; Servos.writeMicroseconds contains the same
mismatched call but its line is dedented one space, an IndentationError
that CPython raises at module compile time, so that method never executes
at all — failing at import with a syntax-level error rather than a
TypeError; no servo write through either path ever completes successfully
or writes a frame. -/
theorem servo_write_kwarg_amended (pos : List (Int × Int)) (p angle uS q : Int)
    (h : dictGet pos p = some q) :
    Servos.write pos p angle = Except.error (PyErr.typeError twfMsg) ∧
    Servos.writeMicroseconds pos p uS = Except.error (PyErr.indentationError 571) ∧
    (∀ pos2 p2 a2 f, ¬ (Servos.write pos2 p2 a2 = Except.ok f)) ∧
    (∀ pos2 p2 u2 f, ¬ (Servos.writeMicroseconds pos2 p2 u2 = Except.ok f)) := by
  refine ⟨by simp [Servos.write, h], rfl, ?_, ?_⟩
  · intro pos2 p2 a2 f hok
    cases hg : dictGet pos2 p2 <;> simp [Servos.write, hg] at hok
  · intro pos2 p2 u2 f hok
    simp [Servos.writeMicroseconds] at hok

/-- C10 witness: pin 3 bound to position handle 9. -/
theorem servo_write_kwarg_amended_witness :
    dictGet [((3 : Int), (9 : Int))] 3 = some 9 ∧
    Servos.write [((3 : Int), (9 : Int))] 3 90 = Except.error (PyErr.typeError twfMsg) :=
  ⟨rfl, (servo_write_kwarg_amended [((3 : Int), (9 : Int))] 3 90 1500 9 rfl).1⟩
